import Mathlib

/-!
Verification of the secure remote code-execution bridge
(`src/evo_ai/code_execution_agent.py`): the safety pre-check
(`validate_code_safety`), the result classifier inside
`VertexAiCodeExecutor.execute_python_code`, and the `execute_code` façade.

The Python code is shallowly embedded: the remote generate call is a
parameter of type `Except String Response` (an exception message, or the
structured response), and each function additionally returns a `Bool`
recording whether the remote call was reached.  A Python result dictionary
is embedded as `ExecResult`, where a key that is absent from the dictionary
on some path is an `Option` field equal to `none` on that path.

Python string primitives (`in`, `str.lower`, `str.endswith`, `str.strip`)
are embedded as structurally recursive functions over `String.data`, so
that every definition evaluates inside the kernel.
-/

namespace CodeExecutionAgent

/-- Embeds Python list-of-characters test: `needle` is a leading segment of
`hay`. -/
def leadsWith : List Char → List Char → Bool
  | [], _ => true
  | _ :: _, [] => false
  | a :: as, b :: bs => a == b && leadsWith as bs

/-- Embeds Python `needle in hay` membership on character lists. -/
def hasSegment (needle : List Char) : List Char → Bool
  | [] => needle.isEmpty
  | c :: rest => leadsWith needle (c :: rest) || hasSegment needle rest

/-- Embeds Python substring containment `needle in hay` on strings. -/
def substrOf (needle hay : String) : Bool :=
  hasSegment needle.data hay.data

/-- Embeds Python `s.endswith(suffix)`. -/
def trailsWith (s suffixStr : String) : Bool :=
  leadsWith suffixStr.data.reverse s.data.reverse

/-- Embeds Python `s.lower()` (ASCII case folding, the only case relevant
to the deny list and error indicators). -/
def lowerStr (s : String) : String :=
  String.mk (s.data.map Char.toLower)

/-- Embeds Python `s.strip()`: drop leading and trailing whitespace. -/
def trimStr (s : String) : String :=
  String.mk (((s.data.dropWhile Char.isWhitespace).reverse.dropWhile
    Char.isWhitespace).reverse)

/-- Concatenation of a list of strings, used to state how the classifier
assembles its output text. -/
def concatAll : List String → String
  | [] => ""
  | s :: rest => s ++ concatAll rest

/-- An executable-code fragment collected from a response part
(`part.executable_code`). -/
structure CodeFragment where
  language : String
  code : String
deriving DecidableEq

/-- An execution-outcome record collected from a response part
(`part.code_execution_result`); `outcome` holds the `str(...)` image of the
outcome tag, `output` holds the outcome output text (Python `None` and `""`
coincide under the truthiness checks performed on it, so both are `""`). -/
structure OutcomeRecord where
  outcome : String
  output : String
deriving DecidableEq

/-- One response part.  In the Google GenAI response each part carries at
most one payload; a field the part does not carry is `none`, and the Python
`hasattr(part, f) and part.f` truthiness test is `none`/empty-string
falsiness here. -/
structure Part where
  text : Option String := none
  executable_code : Option CodeFragment := none
  code_execution_result : Option OutcomeRecord := none
deriving DecidableEq

/-- The `candidate.content` wrapper holding the ordered parts. -/
structure Content where
  parts : List Part
deriving DecidableEq

/-- One response candidate. -/
structure Candidate where
  content : Content
deriving DecidableEq

/-- The structured remote response: an ordered candidate list. -/
structure Response where
  candidates : List Candidate
deriving DecidableEq

/-- The result dictionary built by `execute_python_code` / `execute_code`.
`execution_time` is the measured wall-clock value passed through the
embedding (an integer number of time units).  The last three fields are
keys that some paths leave out of the dictionary: `none` means the key is
absent on that path. -/
structure ExecResult where
  success : Bool
  error : String
  output : String
  execution_time : Int
  code_executed : Option String := none
  generated_code : Option (List CodeFragment) := none
  execution_results : Option (List OutcomeRecord) := none
deriving DecidableEq

/-- Accumulator state of the response walk in `execute_python_code`:
`output_text`, `code_executed` and `execution_results` in the source. -/
structure WalkState where
  output_text : String
  code_executed : List CodeFragment
  execution_results : List OutcomeRecord
deriving DecidableEq

/-- The `elif` tail of the part walk: runs when the part has no truthy
`text`.  Appends a truthy `executable_code` fragment, else a truthy
`code_execution_result` record, else leaves the state unchanged. -/
def partStepRest (st : WalkState) (p : Part) : WalkState :=
  match p.executable_code with
  | some frag => { st with code_executed := st.code_executed ++ [frag] }
  | none =>
    match p.code_execution_result with
    | some r => { st with execution_results := st.execution_results ++ [r] }
    | none => st

/-- One iteration of the part walk (`for part in candidate.content.parts`):
a truthy `text` is appended to `output_text` followed by a newline,
otherwise the `elif` chain of `partStepRest` runs. -/
def partStep (st : WalkState) (p : Part) : WalkState :=
  match p.text with
  | some s =>
    if s != "" then
      { st with output_text := st.output_text ++ s ++ "\n" }
    else
      partStepRest st p
  | none => partStepRest st p

/-- The full response walk (`for candidate in response.candidates: for part
in candidate.content.parts`), starting from empty accumulators. -/
def walkResponse (resp : Response) : WalkState :=
  resp.candidates.foldl (fun st c => c.content.parts.foldl partStep st)
    ⟨"", [], []⟩

/-- Embeds the combine step: `combined_output = output_text` then every
truthy outcome `output` is appended followed by a newline, in encounter
order. -/
def combinedOutput (st : WalkState) : String :=
  st.execution_results.foldl
    (fun a r => if r.output != "" then a ++ r.output ++ "\n" else a)
    st.output_text

/-- The deny list `dangerous_patterns` of the source, in source order. -/
def dangerous_patterns : List String :=
  ["__import__", "compile(", "exec(", "eval("]

/-- The `error_indicators` list of the source, in source order. -/
def error_indicators : List String :=
  ["error:", "exception:", "traceback", "failed"]

/-- The literal outcome marker tested by `str(...).endswith("OUTCOME_OK")`. -/
def outcomeOK : String := "OUTCOME_OK"

/-- Embeds the success classification of `execute_python_code`: with at
least one collected outcome record, success iff some outcome tag ends with
`OUTCOME_OK`; with none but some output text, success iff no error
indicator occurs in the lower-cased combined output; else failure. -/
def classifySuccess (st : WalkState) : Bool :=
  match st.execution_results with
  | _ :: _ =>
    st.execution_results.any (fun r => trailsWith r.outcome outcomeOK)
  | [] =>
    if st.output_text != "" || combinedOutput st != "" then
      !(error_indicators.any
        (fun ind => substrOf ind (lowerStr (combinedOutput st))))
    else
      false

/-- Builds the result dictionary of the classified-response path of
`execute_python_code` from the walk state. -/
def mkResult (st : WalkState) (code : String) (elapsed : Int) : ExecResult :=
  { success := classifySuccess st
    error :=
      if classifySuccess st then "" else
        "Code execution failed or produced errors"
    output := trimStr (combinedOutput st)
    execution_time := elapsed
    code_executed := some code
    generated_code := some st.code_executed
    execution_results := some st.execution_results }

/-- The result classifier: walks the response and builds the result
dictionary. -/
def classify (resp : Response) (code : String) (elapsed : Int) : ExecResult :=
  mkResult (walkResponse resp) code elapsed

/-- Embeds `VertexAiCodeExecutor.execute_python_code`.  `initialized` is
`self.initialized`; `remote` is the behaviour of the
`client.models.generate_content` call (`Except.error msg` embeds a raised
exception whose `str` is `msg`); `elapsed` is the measured wall-clock time
of the remote call.  The second component of the result records whether
the remote call was reached. -/
def execute_python_code (initialized : Bool) (code : String)
    (remote : Except String Response) (elapsed : Int) : ExecResult × Bool :=
  if initialized then
    match remote with
    | Except.error msg =>
      ({ success := false
         error := "Code execution failed: " ++ msg
         output := ""
         execution_time := elapsed
         code_executed := some code }, true)
    | Except.ok resp => (classify resp code elapsed, true)
  else
    ({ success := false
       error := "VertexAI Code Executor not properly initialized. Please install google-cloud-aiplatform and configure authentication."
       output := ""
       execution_time := 0 }, false)

/-- Embeds `VertexAiCodeExecutor.validate_code_safety`: first deny-listed
pattern found as a substring of the lower-cased code decides the verdict. -/
def validate_code_safety (code : String) : Bool × String :=
  match dangerous_patterns.find? (fun p => substrOf p (lowerStr code)) with
  | some p => (false, "Potentially unsafe operation detected: " ++ p)
  | none => (true, "Code appears safe for execution")

/-- Embeds the module-level `execute_code` façade: validate first, return
the blocked dictionary on an unsafe verdict without reaching the remote
call, otherwise delegate to `execute_python_code`. -/
def execute_code (code : String) (initialized : Bool)
    (remote : Except String Response) (elapsed : Int) : ExecResult × Bool :=
  match validate_code_safety code with
  | (true, _) => execute_python_code initialized code remote elapsed
  | (false, reason) =>
    ({ success := false
       error := "Code execution blocked for safety: " ++ reason
       output := ""
       execution_time := 0 }, false)

/-- The truthy `text` payloads of a part list, in order (the plain-text
parts the walk accumulates). -/
def partTexts (ps : List Part) : List String :=
  ps.filterMap (fun p =>
    match p.text with
    | some s => if s != "" then some s else none
    | none => none)

/-- The outcome record a part contributes when the `elif` chain reaches it:
only a part with no truthy `text` and no `executable_code` contributes. -/
def skipCode (p : Part) : Option OutcomeRecord :=
  match p.executable_code with
  | some _ => none
  | none => p.code_execution_result

/-- The outcome records of a part list, in collection order. -/
def partOutcomes (ps : List Part) : List OutcomeRecord :=
  ps.filterMap (fun p =>
    match p.text with
    | some s => if s != "" then none else skipCode p
    | none => skipCode p)

/-- All plain-text payloads of a response in encounter order. -/
def responseTexts (resp : Response) : List String :=
  (resp.candidates.map (fun c => partTexts c.content.parts)).flatten

/-- All outcome records of a response in encounter order. -/
def responseOutcomes (resp : Response) : List OutcomeRecord :=
  (resp.candidates.map (fun c => partOutcomes c.content.parts)).flatten

/-- A response with an empty candidate list. -/
def emptyResponse : Response := ⟨[]⟩

/-- A response whose single part is the text `"4\n"`. -/
def textOnlyResponse : Response :=
  ⟨[⟨⟨[{ text := some "4\n" }]⟩⟩]⟩

/-- A response whose single part is one execution outcome whose tag ends in
`OUTCOME_OK`. -/
def okOutcomeResponse : Response :=
  ⟨[⟨⟨[{ code_execution_result :=
          some { outcome := "Outcome.OUTCOME_OK", output := "" } }]⟩⟩]⟩

/-- The empty code string, used as a concrete submitted-code value. -/
def noCode : String := ""

/-- A concrete code string that calls `eval`. -/
def evalCode : String := "eval(1+1)"

/-- A concrete code string with no dynamic-evaluation operation at all: the
identifier `retrieval` merely contains the characters `eval(` once the
opening parenthesis of its call follows it. -/
def sneakyCode : String := "retrieval(x)"

/-- The deny-listed pattern matched inside `sneakyCode`. -/
def evalPat : String := "eval("

/-- A concrete transport-exception message. -/
def boom : String := "socket timeout"

/-- Recognises error strings of the transport-failure shape: those carrying
the `Code execution failed: ` lead-in of the exception path. -/
def transportShaped (e : String) : Bool :=
  leadsWith ("Code execution failed: ").data e.data

/-- Whether the embedded remote call behaviour is a normal return rather
than a raised exception. -/
def remoteOk : Except String Response → Bool
  | Except.ok _ => true
  | Except.error _ => false

theorem str_append_empty (s : String) : s ++ "" = s := by
  apply String.ext
  simp [String.data_append]

theorem str_empty_append (s : String) : "" ++ s = s := by
  apply String.ext
  simp [String.data_append]

theorem str_append_assoc (a b c : String) : a ++ b ++ c = a ++ (b ++ c) := by
  apply String.ext
  simp [String.data_append]

theorem data_of_empty : ("" : String).data = ([] : List Char) := rfl

theorem str_append_ne_empty (s t : String) (h : s ≠ "") : s ++ t ≠ "" := by
  intro hc
  apply h
  apply String.ext
  have hd := congrArg String.data hc
  rw [String.data_append, data_of_empty] at hd
  rw [data_of_empty]
  exact (List.append_eq_nil.mp hd).1

theorem leadsWith_append (a b : List Char) : leadsWith a (a ++ b) = true := by
  induction a with
  | nil => rfl
  | cons c rest ih => simp [leadsWith, ih]

theorem concatAll_append (a b : List String) :
    concatAll (a ++ b) = concatAll a ++ concatAll b := by
  induction a with
  | nil => simp [concatAll, str_empty_append]
  | cons s rest ih => simp [concatAll, ih, str_append_assoc]

theorem partStepRest_text (st : WalkState) (p : Part) :
    (partStepRest st p).output_text = st.output_text := by
  cases hec : p.executable_code with
  | some frag => simp [partStepRest, hec]
  | none =>
    cases hcr : p.code_execution_result with
    | some r => simp [partStepRest, hec, hcr]
    | none => simp [partStepRest, hec, hcr]

theorem partStepRest_outs (st : WalkState) (p : Part) :
    (partStepRest st p).execution_results
      = st.execution_results ++ (skipCode p).toList := by
  cases hec : p.executable_code with
  | some frag => simp [partStepRest, skipCode, hec]
  | none =>
    cases hcr : p.code_execution_result with
    | some r => simp [partStepRest, skipCode, hec, hcr]
    | none => simp [partStepRest, skipCode, hec, hcr]

theorem foldl_partStep_text (ps : List Part) (st : WalkState) :
    (ps.foldl partStep st).output_text
      = st.output_text ++ concatAll ((partTexts ps).map (fun s => s ++ "\n")) := by
  induction ps generalizing st with
  | nil => simp [partTexts, concatAll, str_append_empty]
  | cons p rest ih =>
    rw [List.foldl_cons, ih]
    cases hpt : p.text with
    | some s =>
      by_cases hs : s = ""
      · subst hs
        simp [partStep, partTexts, hpt, partStepRest_text]
      · simp [partStep, partTexts, hpt, hs, concatAll, str_append_assoc]
    | none =>
      simp [partStep, partTexts, hpt, partStepRest_text]

theorem foldl_partStep_outs (ps : List Part) (st : WalkState) :
    (ps.foldl partStep st).execution_results
      = st.execution_results ++ partOutcomes ps := by
  induction ps generalizing st with
  | nil => simp [partOutcomes]
  | cons p rest ih =>
    rw [List.foldl_cons, ih]
    cases hpt : p.text with
    | some s =>
      by_cases hs : s = ""
      · subst hs
        cases hsk : skipCode p with
        | some r =>
          simp [partStep, partOutcomes, hpt, partStepRest_outs, hsk]
        | none =>
          simp [partStep, partOutcomes, hpt, partStepRest_outs, hsk]
      · simp [partStep, partOutcomes, hpt, hs]
    | none =>
      cases hsk : skipCode p with
      | some r =>
        simp [partStep, partOutcomes, hpt, partStepRest_outs, hsk]
      | none =>
        simp [partStep, partOutcomes, hpt, partStepRest_outs, hsk]

theorem foldl_cand_text (cs : List Candidate) (st : WalkState) :
    (cs.foldl (fun acc c => c.content.parts.foldl partStep acc) st).output_text
      = st.output_text
        ++ concatAll (((cs.map (fun c => partTexts c.content.parts)).flatten).map
            (fun s => s ++ "\n")) := by
  induction cs generalizing st with
  | nil => simp [concatAll, str_append_empty]
  | cons c rest ih =>
    rw [List.foldl_cons, ih, foldl_partStep_text]
    simp [concatAll_append, str_append_assoc]

theorem foldl_cand_outs (cs : List Candidate) (st : WalkState) :
    (cs.foldl (fun acc c => c.content.parts.foldl partStep acc) st).execution_results
      = st.execution_results
        ++ (cs.map (fun c => partOutcomes c.content.parts)).flatten := by
  induction cs generalizing st with
  | nil => simp
  | cons c rest ih =>
    rw [List.foldl_cons, ih, foldl_partStep_outs]
    simp

theorem walkResponse_text (resp : Response) :
    (walkResponse resp).output_text
      = concatAll ((responseTexts resp).map (fun s => s ++ "\n")) := by
  rw [walkResponse, foldl_cand_text]
  exact str_empty_append _

theorem walkResponse_outs (resp : Response) :
    (walkResponse resp).execution_results = responseOutcomes resp := by
  rw [walkResponse, foldl_cand_outs]
  rfl

theorem foldl_combine (l : List OutcomeRecord) (acc : String) :
    l.foldl (fun a r => if r.output != "" then a ++ r.output ++ "\n" else a) acc
      = acc ++ concatAll ((l.filter (fun r => r.output != "")).map
          (fun r => r.output ++ "\n")) := by
  induction l generalizing acc with
  | nil => simp [concatAll, str_append_empty]
  | cons r rest ih =>
    rw [List.foldl_cons, List.filter_cons]
    by_cases hcond : (r.output != "") = true
    · rw [if_pos hcond, if_pos hcond, ih]
      simp [concatAll, str_append_assoc]
    · rw [if_neg hcond, if_neg hcond, ih]

theorem combinedOutput_eq (st : WalkState) :
    combinedOutput st
      = st.output_text
        ++ concatAll ((st.execution_results.filter (fun r => r.output != "")).map
            (fun r => r.output ++ "\n")) :=
  foldl_combine st.execution_results st.output_text

/-- C1: for every code string containing a deny-listed substring of
`dangerous_patterns` case-insensitively, `execute_code` returns
`success = false` with empty output and an error naming the matched
pattern, and the remote executor is never invoked (second component
`false`). -/
theorem safety_gate_blocks_execution (code : String) (initialized : Bool)
    (remote : Except String Response) (t : Int)
    (h : dangerous_patterns.any (fun p => substrOf p (lowerStr code)) = true) :
    (execute_code code initialized remote t).2 = false ∧
    (execute_code code initialized remote t).1.success = false ∧
    (execute_code code initialized remote t).1.output = "" ∧
    ∃ p ∈ dangerous_patterns, substrOf p (lowerStr code) = true ∧
      (execute_code code initialized remote t).1.error
        = "Code execution blocked for safety: "
          ++ ("Potentially unsafe operation detected: " ++ p) := by
  have hfind :
      (dangerous_patterns.find? (fun p => substrOf p (lowerStr code))).isSome := by
    rw [List.find?_isSome]
    exact List.any_eq_true.mp h
  obtain ⟨q, hq⟩ := Option.isSome_iff_exists.mp hfind
  have hmem : q ∈ dangerous_patterns := List.mem_of_find?_eq_some hq
  have hpred := List.find?_some hq
  refine ⟨?_, ?_, ?_, q, hmem, hpred, ?_⟩ <;>
    simp [execute_code, validate_code_safety, hq]

/-- Witness for C1: the code string `eval(1+1)` is deny-listed and
blocked. -/
theorem safety_gate_blocks_execution_witness :
    dangerous_patterns.any (fun p => substrOf p (lowerStr evalCode)) = true ∧
    ((execute_code evalCode true (Except.ok emptyResponse) 0).2 = false ∧
     (execute_code evalCode true (Except.ok emptyResponse) 0).1.success = false ∧
     (execute_code evalCode true (Except.ok emptyResponse) 0).1.output = "" ∧
     ∃ p ∈ dangerous_patterns, substrOf p (lowerStr evalCode) = true ∧
       (execute_code evalCode true (Except.ok emptyResponse) 0).1.error
         = "Code execution blocked for safety: "
           ++ ("Potentially unsafe operation detected: " ++ p)) :=
  ⟨by decide,
   safety_gate_blocks_execution evalCode true (Except.ok emptyResponse) 0 (by decide)⟩

/-- C2: when the walked response carries at least one execution-outcome
record, the classifier sets `success = true` if and only if some collected
outcome tag ends with the literal `OUTCOME_OK`; the conclusion depends on
nothing but the outcome tags, so the text heuristic is not consulted. -/
theorem classify_outcome_success (resp : Response) (code : String) (t : Int)
    (h : (walkResponse resp).execution_results ≠ []) :
    ((classify resp code t).success = true
      ↔ ∃ r ∈ (walkResponse resp).execution_results,
          trailsWith r.outcome outcomeOK = true) := by
  cases hst : (walkResponse resp).execution_results with
  | nil => exact absurd hst h
  | cons a l =>
    simp [classify, mkResult, classifySuccess, hst, List.any_eq_true]

/-- Witness for C2: a response with one outcome record whose tag ends in
`OUTCOME_OK`. -/
theorem classify_outcome_success_witness :
    (walkResponse okOutcomeResponse).execution_results ≠ [] ∧
    ((classify okOutcomeResponse noCode 0).success = true
      ↔ ∃ r ∈ (walkResponse okOutcomeResponse).execution_results,
          trailsWith r.outcome outcomeOK = true) :=
  ⟨by decide, classify_outcome_success okOutcomeResponse noCode 0 (by decide)⟩

/-- C3: on every path of `execute_code` (safety-rejected, uninitialized,
transport error, classified response) the returned record has an empty
error string exactly when `success` is `true`; in particular failure always
carries a non-empty error. -/
theorem result_error_empty_iff_success (code : String) (initialized : Bool)
    (remote : Except String Response) (t : Int) :
    ((execute_code code initialized remote t).1.error = ""
      ↔ (execute_code code initialized remote t).1.success = true) := by
  cases hv : dangerous_patterns.find? (fun p => substrOf p (lowerStr code)) with
  | some q =>
    have hne : ("Code execution blocked for safety: "
        ++ ("Potentially unsafe operation detected: " ++ q)) ≠ "" :=
      str_append_ne_empty _ _ (by decide)
    simp [execute_code, validate_code_safety, hv, hne]
  | none =>
    cases initialized with
    | false =>
      simp [execute_code, validate_code_safety, hv, execute_python_code]
    | true =>
      cases remote with
      | error msg =>
        have hne : ("Code execution failed: " ++ msg) ≠ "" :=
          str_append_ne_empty _ _ (by decide)
        simp [execute_code, validate_code_safety, hv, execute_python_code, hne]
      | ok resp =>
        cases hcs : classifySuccess (walkResponse resp) with
        | true =>
          simp [execute_code, validate_code_safety, hv, execute_python_code,
            classify, mkResult, hcs]
        | false =>
          simp [execute_code, validate_code_safety, hv, execute_python_code,
            classify, mkResult, hcs]

/-- Counterexample to C4 as stated: for the transport exception message
`socket timeout`, the error field of the result is not equal to that
message (the code prepends `Code execution failed: `). -/
theorem transport_error_not_bare_message :
    ¬ ((execute_python_code true noCode (Except.error boom) 1).1.error = boom) := by
  decide

/-- C4 (amended): a raised transport exception yields a returned record
(never a propagated exception) with `success = false`, empty output, and an
error equal to `Code execution failed: ` followed by the exception's
message; the remote call was reached. -/
theorem transport_error_result (code msg : String) (t : Int) :
    (execute_python_code true code (Except.error msg) t).1.success = false ∧
    (execute_python_code true code (Except.error msg) t).1.output = "" ∧
    (execute_python_code true code (Except.error msg) t).1.error
      = "Code execution failed: " ++ msg ∧
    (execute_python_code true code (Except.error msg) t).2 = true :=
  ⟨rfl, rfl, rfl, rfl⟩

/-- Counterexample to C5 as stated: on an empty candidate list the
classifier's error field is not empty. -/
theorem empty_candidates_error_nonempty :
    ¬ ((classify emptyResponse noCode 0).error = "") := by decide

/-- C5 (amended): an empty candidate list classifies as `success = false`
with empty output and the fixed classifier failure message, which is
distinguishable from every transport failure: transport errors carry the
`Code execution failed: ` lead-in and this message does not. -/
theorem empty_candidates_result (code : String) (t : Int) :
    (classify emptyResponse code t).success = false ∧
    (classify emptyResponse code t).output = "" ∧
    (classify emptyResponse code t).error
      = "Code execution failed or produced errors" ∧
    transportShaped ((classify emptyResponse code t).error) = false ∧
    ∀ msg : String,
      transportShaped ((execute_python_code true code (Except.error msg) t).1.error)
        = true := by
  refine ⟨rfl, rfl, rfl, rfl, fun msg => ?_⟩
  show leadsWith ("Code execution failed: ").data
      ("Code execution failed: " ++ msg).data = true
  rw [String.data_append]
  exact leadsWith_append _ _

/-- C6: with zero collected execution-outcome records and non-empty
combined output text, the classifier sets `success = true` if and only if
the lower-cased combined text contains none of the four error-indicator
substrings. -/
theorem classify_text_heuristic (resp : Response) (code : String) (t : Int)
    (h1 : (walkResponse resp).execution_results = [])
    (h2 : combinedOutput (walkResponse resp) ≠ "") :
    ((classify resp code t).success = true
      ↔ ∀ ind ∈ error_indicators,
          substrOf ind (lowerStr (combinedOutput (walkResponse resp))) = false) := by
  simp [classify, mkResult, classifySuccess, h1, h2, List.any_eq_true]

/-- Witness for C6: a response with one text part `4\n` and no outcomes. -/
theorem classify_text_heuristic_witness :
    (walkResponse textOnlyResponse).execution_results = [] ∧
    combinedOutput (walkResponse textOnlyResponse) ≠ "" ∧
    ((classify textOnlyResponse noCode 0).success = true
      ↔ ∀ ind ∈ error_indicators,
          substrOf ind (lowerStr (combinedOutput (walkResponse textOnlyResponse)))
            = false) :=
  ⟨by decide, by decide,
   classify_text_heuristic textOnlyResponse noCode 0 (by decide) (by decide)⟩

/-- Counterexample to C7 as stated: on the uninitialized failure path the
returned dictionary omits the generated-code and execution-outcome keys
(both fields are `none`), so not every declared field is present on every
path. -/
theorem failure_path_omits_fields :
    (execute_python_code false noCode (Except.ok emptyResponse) 0).1.generated_code
        = none ∧
    (execute_python_code false noCode (Except.ok emptyResponse) 0).1.execution_results
        = none :=
  ⟨rfl, rfl⟩

/-- C7 (amended): every call to `execute_code` returns a record (the
embedding is a total function, so no exception escapes the façade);
`success`, `error`, `output` and a non-negative `execution_time` are
present on every path, while the submitted-code key is present exactly on
the paths that pass the safety gate with an initialized executor, and the
generated-code and execution-outcome keys exactly on the classified
remote-response path. -/
theorem execute_code_result_shape (code : String) (initialized : Bool)
    (remote : Except String Response) (t : Int) (h : 0 ≤ t) :
    0 ≤ (execute_code code initialized remote t).1.execution_time ∧
    ((execute_code code initialized remote t).1.code_executed ≠ none
      ↔ ((validate_code_safety code).1 = true ∧ initialized = true)) ∧
    ((execute_code code initialized remote t).1.generated_code ≠ none
      ↔ ((validate_code_safety code).1 = true ∧ initialized = true
          ∧ remoteOk remote = true)) ∧
    ((execute_code code initialized remote t).1.execution_results ≠ none
      ↔ ((validate_code_safety code).1 = true ∧ initialized = true
          ∧ remoteOk remote = true)) := by
  cases hv : dangerous_patterns.find? (fun p => substrOf p (lowerStr code)) with
  | some q => simp [execute_code, validate_code_safety, hv]
  | none =>
    cases initialized with
    | false =>
      simp [execute_code, validate_code_safety, hv, execute_python_code]
    | true =>
      cases remote with
      | error msg =>
        simp [execute_code, validate_code_safety, hv, execute_python_code,
          remoteOk, h]
      | ok resp =>
        simp [execute_code, validate_code_safety, hv, execute_python_code,
          remoteOk, classify, mkResult, h]

/-- Witness for C7 (amended) at a safe code string, an initialized
executor, a normal remote return and elapsed time 2. -/
theorem execute_code_result_shape_witness :
    ((0 : Int) ≤ 2) ∧
    (0 ≤ (execute_code noCode true (Except.ok emptyResponse) 2).1.execution_time ∧
     ((execute_code noCode true (Except.ok emptyResponse) 2).1.code_executed ≠ none
       ↔ ((validate_code_safety noCode).1 = true ∧ true = true)) ∧
     ((execute_code noCode true (Except.ok emptyResponse) 2).1.generated_code ≠ none
       ↔ ((validate_code_safety noCode).1 = true ∧ true = true
           ∧ remoteOk (Except.ok emptyResponse) = true)) ∧
     ((execute_code noCode true (Except.ok emptyResponse) 2).1.execution_results ≠ none
       ↔ ((validate_code_safety noCode).1 = true ∧ true = true
           ∧ remoteOk (Except.ok emptyResponse) = true))) :=
  ⟨by decide,
   execute_code_result_shape noCode true (Except.ok emptyResponse) 2 (by decide)⟩

/-- C8: with the initialized flag false, `execute_python_code` returns the
fixed not-initialized failure record with empty output and execution time
zero, and the remote call is not reached (second component `false`). -/
theorem uninitialized_short_circuit (code : String)
    (remote : Except String Response) (t : Int) :
    execute_python_code false code remote t
      = ({ success := false
           error := "VertexAI Code Executor not properly initialized. Please install google-cloud-aiplatform and configure authentication."
           output := ""
           execution_time := 0
           code_executed := none
           generated_code := none
           execution_results := none }, false) := rfl

/-- C9: the classifier's output field is the stripped concatenation of the
truthy plain-text parts in encounter order, each followed by a newline,
followed by the non-empty outcome outputs in encounter order, each followed
by a newline; in particular a single text part `4\n` with no outcomes
yields `success = true` and output `4`. -/
theorem classifier_output_assembly :
    (∀ (resp : Response) (code : String) (t : Int),
      (classify resp code t).output
        = trimStr (concatAll ((responseTexts resp).map (fun s => s ++ "\n"))
            ++ concatAll (((responseOutcomes resp).filter
                (fun r => r.output != "")).map (fun r => r.output ++ "\n")))) ∧
    (classify textOnlyResponse noCode 0).success = true ∧
    (classify textOnlyResponse noCode 0).output = "4" := by
  refine ⟨fun resp code t => ?_, by decide, by decide⟩
  show trimStr (combinedOutput (walkResponse resp)) = _
  rw [combinedOutput_eq, walkResponse_text, walkResponse_outs]

/-- C10: the safety pre-check matches deny-listed patterns as plain
substrings, not as tokens or calls: the code string `retrieval(x)` performs
no dynamic-evaluation operation yet contains the characters `eval(`, so
`execute_code` blocks it with a safety error and never contacts the remote
service. -/
theorem substring_match_blocks_benign :
    substrOf evalPat (lowerStr sneakyCode) = true ∧
    (execute_code sneakyCode true (Except.ok emptyResponse) 0).2 = false ∧
    (execute_code sneakyCode true (Except.ok emptyResponse) 0).1.success = false ∧
    (execute_code sneakyCode true (Except.ok emptyResponse) 0).1.output = "" ∧
    (execute_code sneakyCode true (Except.ok emptyResponse) 0).1.error
      = "Code execution blocked for safety: Potentially unsafe operation detected: eval(" := by
  decide


end CodeExecutionAgent
